import Mathlib

/-!
# SupportHub ticket lifecycle engine — a shallow embedding

This file embeds the ticket lifecycle state machine of `server_app.py`
(the `Ticket` ORM model and the `POST /tickets/{id}/action` handler
`ticket_action`), together with the near-duplicate implementation in
`supporthub/supporthub/server_app.py`, and proves/refutes the specified
properties of the engine.

Modelling conventions:
* Timestamps (`datetime` values) are modelled as `Int` seconds;
  `(a - b).total_seconds()` truncated with `int(...)` becomes plain `Int`
  subtraction (exact for whole-second instants).
* The implicit clock reads (`datetime.utcnow()`) inside one transition are
  modelled as a single injected instant `now`, passed as an explicit
  parameter, matching the spec's clock-injection convention.
* Python's in-place mutation becomes a pure function returning the new
  ticket; an HTTP-error `raise` becomes `Except.error`, so a rejected call
  produces no ticket state at all (the stored ticket is untouched).
* Python string truthiness (`reason and reason.strip()`,
  `ticket.current_actor and ...`) is modelled exactly: `None` and the empty
  string are falsy.
-/

/-- Ticket status values: the `status` column holds one of
`PENDING/DOING/HOLD/DONE/CANCELLED`. -/
inductive Status where
  | pending
  | doing
  | hold
  | done
  | cancelled
deriving DecidableEq, Repr

/-- The error taxonomy of the endpoint's rejections as named by the spec:
`InvalidStateTransition` for the re-start guards (HTTP 409 "cannot press
Doing/Hold again"), `OwnershipConflict` for the actor-mismatch guard
(HTTP 409 "username does not match the current worker"),
`ValidationError` for missing required text (HTTP 400), and
`invalidAction` for an unrecognized action string (HTTP 400). -/
inductive Err where
  | invalidStateTransition
  | ownershipConflict
  | validationError
  | invalidAction
deriving DecidableEq, Repr

/-- Python's `str.lower()`: lower-case every character (the action verbs
involved are ASCII, where `Char.toLower` coincides with Python). -/
def pyLower (s : String) : String := ⟨s.data.map Char.toLower⟩

/-- Python's `str.strip()`: remove leading and trailing whitespace. -/
def pyStrip (s : String) : String :=
  ⟨((s.data.dropWhile Char.isWhitespace).reverse.dropWhile Char.isWhitespace).reverse⟩

/-- The `tickets` table row, restricted to the engine's fields
(columns of `class Ticket` in `server_app.py`). -/
structure Ticket where
  id : Nat
  created_at : Int
  closed_at : Option Int
  requester : String
  machine : Option String
  equipment : Option String
  machine_id : Option String
  problem : Option String
  description : Option String
  status : Status
  doing_started_at : Option Int
  hold_started_at : Option Int
  doing_secs : Int
  hold_secs : Int
  current_actor : Option String
  last_action : Option String
  hold_reason : Option String
  solution : Option String
  done_by : Option String
  cancel_reason : Option String
  canceled_by : Option String
deriving DecidableEq, Repr

namespace Ticket

/-- `Ticket._acc_doing_until_now`: if a doing interval is open, add its
elapsed whole seconds to `doing_secs` and clear `doing_started_at`. -/
def _acc_doing_until_now (t : Ticket) (now : Int) : Ticket :=
  match t.doing_started_at with
  | some s => { t with doing_secs := t.doing_secs + (now - s), doing_started_at := none }
  | none => t

/-- `Ticket._acc_hold_until_now`: if a hold interval is open, add its
elapsed whole seconds to `hold_secs` and clear `hold_started_at`. -/
def _acc_hold_until_now (t : Ticket) (now : Int) : Ticket :=
  match t.hold_started_at with
  | some s => { t with hold_secs := t.hold_secs + (now - s), hold_started_at := none }
  | none => t

/-- `Ticket.start_doing`: flush any open hold interval, open a doing
interval at `now`, set status `DOING`. -/
def start_doing (t : Ticket) (now : Int) : Ticket :=
  let t := t._acc_hold_until_now now
  { t with doing_started_at := some now, status := Status.doing }

/-- `Ticket.start_hold`: flush any open doing interval, open a hold
interval at `now`, record the stripped reason, set status `HOLD`. -/
def start_hold (t : Ticket) (now : Int) (reason : String) : Ticket :=
  let t := t._acc_doing_until_now now
  { t with hold_started_at := some now, hold_reason := some (pyStrip reason),
           status := Status.hold }

/-- `Ticket.done`: flush both intervals at the same `now`, set status
`DONE`, stamp `closed_at`, record the stripped solution and `done_by`. -/
def done (t : Ticket) (now : Int) (sol : String) (actor : String) : Ticket :=
  let t := t._acc_doing_until_now now
  let t := t._acc_hold_until_now now
  { t with status := Status.done, closed_at := some now,
           solution := some (pyStrip sol), done_by := some actor }

/-- `Ticket.cancel`: flush both intervals at the same `now`, set status
`CANCELLED`, stamp `closed_at`, record the stripped reason and
`canceled_by`. -/
def cancel (t : Ticket) (now : Int) (reason : String) (actor : String) : Ticket :=
  let t := t._acc_doing_until_now now
  let t := t._acc_hold_until_now now
  { t with status := Status.cancelled, closed_at := some now,
           cancel_reason := some (pyStrip reason), canceled_by := some actor }

/-- A freshly created ticket (`POST /request/create` constructs
`Ticket(requester=.., machine=.., ...)` and the column defaults fill the
rest: status `PENDING`, zero accumulators, all nullable fields null). -/
def new (i : Nat) (created : Int) (requester : String)
    (machine equipment machine_id problem description : Option String) : Ticket :=
  { id := i, created_at := created, closed_at := none, requester := requester,
    machine := machine, equipment := equipment, machine_id := machine_id,
    problem := problem, description := description,
    status := Status.pending, doing_started_at := none, hold_started_at := none,
    doing_secs := 0, hold_secs := 0, current_actor := none, last_action := none,
    hold_reason := none, solution := none, done_by := none,
    cancel_reason := none, canceled_by := none }

end Ticket

/-- Python's `ticket.current_actor and ticket.current_actor != actor.username`:
true when `current_actor` is a non-empty string different from `actor`
(`None` and `""` are falsy). -/
def owner_conflict (cur : Option String) (actor : String) : Bool :=
  match cur with
  | some a => a != "" && a != actor
  | none => false

/-- Python's `not (x and x.strip())`: the optional text is missing, empty,
or whitespace-only. -/
def blank (x : Option String) : Bool :=
  match x with
  | some s => pyStrip s == ""
  | none => true

/-- The transition core of `POST /tickets/{ticket_id}/action` in the
top-level `server_app.py` (after the user lookup, password check and
ticket fetch, which are external to the engine): guards in source order,
then the dispatch on `act = action.lower().strip()`. -/
def ticket_action (t : Ticket) (actor : String) (now : Int) (action : String)
    (rsn : Option String) (sol : Option String) : Except Err Ticket :=
  let act := pyStrip (pyLower action)
  if (t.status = Status.doing ∨ t.status = Status.hold) ∧ act = "done" ∧
      owner_conflict t.current_actor actor = true then
    Except.error Err.ownershipConflict
  else if act = "doing" ∧ t.status = Status.doing then
    Except.error Err.invalidStateTransition
  else if act = "hold" ∧ t.status = Status.hold then
    Except.error Err.invalidStateTransition
  else if act = "doing" then
    Except.ok { t.start_doing now with current_actor := some actor,
                                       last_action := some "doing" }
  else if act = "hold" then
    match rsn with
    | some r =>
        if pyStrip r = "" then Except.error Err.validationError
        else Except.ok { t.start_hold now (pyStrip r) with
                         current_actor := some actor, last_action := some "hold" }
    | none => Except.error Err.validationError
  else if act = "done" then
    match sol with
    | some s =>
        if pyStrip s = "" then Except.error Err.validationError
        else Except.ok { t.done now (pyStrip s) actor with
                         current_actor := none, last_action := some "done" }
    | none => Except.error Err.validationError
  else if act = "cancel" then
    match rsn with
    | some r =>
        if pyStrip r = "" then Except.error Err.validationError
        else Except.ok { t.cancel now (pyStrip r) actor with
                         current_actor := none, last_action := some "cancel" }
    | none => Except.error Err.validationError
  else
    Except.error Err.invalidAction

/-- The transition core of `ticket_action` in the near-duplicate
`supporthub/supporthub/server_app.py`: identical except that the
ownership guard fires for every action while the ticket is `DOING` or
`HOLD`, not only for `done`. -/
def ticket_action_v2 (t : Ticket) (actor : String) (now : Int) (action : String)
    (rsn : Option String) (sol : Option String) : Except Err Ticket :=
  let act := pyStrip (pyLower action)
  if (t.status = Status.doing ∨ t.status = Status.hold) ∧
      owner_conflict t.current_actor actor = true then
    Except.error Err.ownershipConflict
  else if act = "doing" ∧ t.status = Status.doing then
    Except.error Err.invalidStateTransition
  else if act = "hold" ∧ t.status = Status.hold then
    Except.error Err.invalidStateTransition
  else if act = "doing" then
    Except.ok { t.start_doing now with current_actor := some actor,
                                       last_action := some "doing" }
  else if act = "hold" then
    match rsn with
    | some r =>
        if pyStrip r = "" then Except.error Err.validationError
        else Except.ok { t.start_hold now (pyStrip r) with
                         current_actor := some actor, last_action := some "hold" }
    | none => Except.error Err.validationError
  else if act = "done" then
    match sol with
    | some s =>
        if pyStrip s = "" then Except.error Err.validationError
        else Except.ok { t.done now (pyStrip s) actor with
                         current_actor := none, last_action := some "done" }
    | none => Except.error Err.validationError
  else if act = "cancel" then
    match rsn with
    | some r =>
        if pyStrip r = "" then Except.error Err.validationError
        else Except.ok { t.cancel now (pyStrip r) actor with
                         current_actor := none, last_action := some "cancel" }
    | none => Except.error Err.validationError
  else
    Except.error Err.invalidAction

/-- `sum_secs` of `export_excel`: `closed_at - created_at` when the ticket
is closed, else `0`. -/
def sum_secs (t : Ticket) : Int :=
  match t.closed_at with
  | some c => c - t.created_at
  | none => 0

/-- `waiting` of `export_excel`:
`max(0, sum_secs - doing_secs - hold_secs)`. -/
def waitingSecs (t : Ticket) : Int :=
  max 0 (sum_secs t - t.doing_secs - t.hold_secs)

/-- The elapsed span of the currently open doing interval at `now`
(zero when none is open): the amount `_acc_doing_until_now` would add. -/
def doingElapsed (t : Ticket) (now : Int) : Int :=
  match t.doing_started_at with
  | some s => now - s
  | none => 0

/-- The elapsed span of the currently open hold interval at `now`
(zero when none is open): the amount `_acc_hold_until_now` would add. -/
def holdElapsed (t : Ticket) (now : Int) : Int :=
  match t.hold_started_at with
  | some s => now - s
  | none => 0

/-- The elapsed span of any currently open doing/hold interval, measured
at `now` (zero when no interval is open). -/
def openElapsed (t : Ticket) (now : Int) : Int :=
  doingElapsed t now + holdElapsed t now

/-- The mutual-exclusion invariant: at most one of `doing_started_at` and
`hold_started_at` is non-null. -/
def MutexOpen (t : Ticket) : Prop :=
  t.doing_started_at = none ∨ t.hold_started_at = none

/-- The inductive time-accounting invariant at the instant `tl` of the
last accepted call: creation precedes `tl`, accumulators are non-negative,
open interval marks are stamped no later than `tl` and mutually exclusive,
and the accounted time fits in the ticket's lifetime. -/
def TimeInv (t : Ticket) (tl : Int) : Prop :=
  t.created_at ≤ tl ∧
  0 ≤ t.doing_secs ∧ 0 ≤ t.hold_secs ∧
  (∀ s, t.doing_started_at = some s → s ≤ tl) ∧
  (∀ s, t.hold_started_at = some s → s ≤ tl) ∧
  MutexOpen t ∧
  t.doing_secs + t.hold_secs + openElapsed t tl ≤ tl - t.created_at

/-- Ticket states reachable from creation by any sequence of
`ticket_action` calls that the endpoint accepts (rejected calls raise
before mutating, so they do not change the stored ticket). -/
inductive Reach : Ticket → Prop where
  | init (i : Nat) (created : Int) (requester : String)
      (machine equipment machine_id problem description : Option String) :
      Reach (Ticket.new i created requester machine equipment machine_id
        problem description)
  | step {t t' : Ticket} (actor : String) (now : Int) (action : String)
      (rsn sol : Option String) (ht : Reach t)
      (hok : ticket_action t actor now action rsn sol = Except.ok t') :
      Reach t'

/-- Ticket states reachable from creation by accepted `ticket_action`
calls whose supplied instants are weakly increasing, starting no earlier
than `created_at`; the `Int` component records the instant of the last
accepted call (creation time initially). -/
inductive ReachAt : Ticket → Int → Prop where
  | init (i : Nat) (created : Int) (requester : String)
      (machine equipment machine_id problem description : Option String) :
      ReachAt (Ticket.new i created requester machine equipment machine_id
        problem description) created
  | step {t t' : Ticket} {tl now : Int} (actor : String) (action : String)
      (rsn sol : Option String) (ht : ReachAt t tl) (hle : tl ≤ now)
      (hok : ticket_action t actor now action rsn sol = Except.ok t') :
      ReachAt t' now

/-- Feed the ticket of a previous successful call into the next
`ticket_action` call, propagating a rejection unchanged. -/
def runStep (r : Except Err Ticket) (actor : String) (now : Int)
    (action : String) (rsn sol : Option String) : Except Err Ticket :=
  match r with
  | Except.ok t => ticket_action t actor now action rsn sol
  | Except.error e => Except.error e

/-- Scenario ticket: created at `t0 = 0`. -/
def scen0 : Ticket := Ticket.new 1 0 "operator1" none none none none none

/-- Scenario step 1: `startDoing(actor=A, now=t0+10s)`. -/
def scen1 : Except Err Ticket := ticket_action scen0 "A" 10 "doing" none none

/-- Scenario step 2: `startHold(actor=A, now=t0+70s, reason="waiting parts")`. -/
def scen2 : Except Err Ticket := runStep scen1 "A" 70 "hold" (some "waiting parts") none

/-- Scenario step 3: `startDoing(actor=A, now=t0+130s)`. -/
def scen3 : Except Err Ticket := runStep scen2 "A" 130 "doing" none none

/-- Scenario step 4: `done(actor=A, now=t0+190s, solution="fixed")`. -/
def scen4 : Except Err Ticket := runStep scen3 "A" 190 "done" none (some "fixed")

/-- A concrete `DONE` ticket: closed at instant 100 with a recorded
solution, as `ticket.done(...)` leaves it. -/
def tDoneTicket : Ticket :=
  { Ticket.new 3 0 "req" none none none none none with
      status := Status.done, closed_at := some 100,
      solution := some "s", done_by := some "alice" }

/-- A concrete ticket in `DOING`, actively held by `"alice"` since
instant 10. -/
def tHeldByAlice : Ticket :=
  { Ticket.new 5 0 "req" none none none none none with
      status := Status.doing, doing_started_at := some 10,
      current_actor := some "alice" }

/-- The ticket produced by an accepted `startDoing` by `"alice"` at
instant 10 on a ticket created at instant 0 — a concrete reachable
state used to instantiate the reachability theorems. -/
def tW1 : Ticket :=
  { (Ticket.new 1 0 "req" none none none none none).start_doing 10 with
      current_actor := some "alice", last_action := some "doing" }

/-- Decidable equality of transition results, so that concrete runs of
`ticket_action` can be checked by evaluation. -/
instance exceptDecEq {e a : Type} [DecidableEq e] [DecidableEq a] :
    DecidableEq (Except e a) := fun x y =>
  match x, y with
  | Except.ok v, Except.ok w =>
      if h : v = w then Decidable.isTrue (by rw [h])
      else Decidable.isFalse (fun hc => by cases hc; exact h rfl)
  | Except.error v, Except.error w =>
      if h : v = w then Decidable.isTrue (by rw [h])
      else Decidable.isFalse (fun hc => by cases hc; exact h rfl)
  | Except.ok _, Except.error _ => Decidable.isFalse (fun hc => by cases hc)
  | Except.error _, Except.ok _ => Decidable.isFalse (fun hc => by cases hc)

/-! ## Field-projection lemmas for the transition methods -/

@[simp] theorem acc_doing_doing_started (t : Ticket) (now : Int) :
    (t._acc_doing_until_now now).doing_started_at = none := by
  cases h : t.doing_started_at <;> simp [Ticket._acc_doing_until_now, h]

@[simp] theorem acc_doing_doing_secs (t : Ticket) (now : Int) :
    (t._acc_doing_until_now now).doing_secs = t.doing_secs + doingElapsed t now := by
  cases h : t.doing_started_at <;> simp [Ticket._acc_doing_until_now, doingElapsed, h]

@[simp] theorem acc_doing_hold_started (t : Ticket) (now : Int) :
    (t._acc_doing_until_now now).hold_started_at = t.hold_started_at := by
  cases h : t.doing_started_at <;> simp [Ticket._acc_doing_until_now, h]

@[simp] theorem acc_doing_hold_secs (t : Ticket) (now : Int) :
    (t._acc_doing_until_now now).hold_secs = t.hold_secs := by
  cases h : t.doing_started_at <;> simp [Ticket._acc_doing_until_now, h]

@[simp] theorem acc_doing_status (t : Ticket) (now : Int) :
    (t._acc_doing_until_now now).status = t.status := by
  cases h : t.doing_started_at <;> simp [Ticket._acc_doing_until_now, h]

@[simp] theorem acc_doing_created_at (t : Ticket) (now : Int) :
    (t._acc_doing_until_now now).created_at = t.created_at := by
  cases h : t.doing_started_at <;> simp [Ticket._acc_doing_until_now, h]

@[simp] theorem acc_doing_closed_at (t : Ticket) (now : Int) :
    (t._acc_doing_until_now now).closed_at = t.closed_at := by
  cases h : t.doing_started_at <;> simp [Ticket._acc_doing_until_now, h]

@[simp] theorem acc_hold_hold_started (t : Ticket) (now : Int) :
    (t._acc_hold_until_now now).hold_started_at = none := by
  cases h : t.hold_started_at <;> simp [Ticket._acc_hold_until_now, h]

@[simp] theorem acc_hold_hold_secs (t : Ticket) (now : Int) :
    (t._acc_hold_until_now now).hold_secs = t.hold_secs + holdElapsed t now := by
  cases h : t.hold_started_at <;> simp [Ticket._acc_hold_until_now, holdElapsed, h]

@[simp] theorem acc_hold_doing_started (t : Ticket) (now : Int) :
    (t._acc_hold_until_now now).doing_started_at = t.doing_started_at := by
  cases h : t.hold_started_at <;> simp [Ticket._acc_hold_until_now, h]

@[simp] theorem acc_hold_doing_secs (t : Ticket) (now : Int) :
    (t._acc_hold_until_now now).doing_secs = t.doing_secs := by
  cases h : t.hold_started_at <;> simp [Ticket._acc_hold_until_now, h]

@[simp] theorem acc_hold_status (t : Ticket) (now : Int) :
    (t._acc_hold_until_now now).status = t.status := by
  cases h : t.hold_started_at <;> simp [Ticket._acc_hold_until_now, h]

@[simp] theorem acc_hold_created_at (t : Ticket) (now : Int) :
    (t._acc_hold_until_now now).created_at = t.created_at := by
  cases h : t.hold_started_at <;> simp [Ticket._acc_hold_until_now, h]

@[simp] theorem acc_hold_closed_at (t : Ticket) (now : Int) :
    (t._acc_hold_until_now now).closed_at = t.closed_at := by
  cases h : t.hold_started_at <;> simp [Ticket._acc_hold_until_now, h]

@[simp] theorem acc_hold_hold_elapsed (t : Ticket) (now m : Int) :
    holdElapsed (t._acc_hold_until_now now) m = 0 := by
  simp [holdElapsed]

@[simp] theorem acc_doing_doing_elapsed (t : Ticket) (now m : Int) :
    doingElapsed (t._acc_doing_until_now now) m = 0 := by
  simp [doingElapsed]

@[simp] theorem acc_doing_hold_elapsed (t : Ticket) (now m : Int) :
    holdElapsed (t._acc_doing_until_now now) m = holdElapsed t m := by
  simp [holdElapsed]

@[simp] theorem acc_hold_doing_elapsed (t : Ticket) (now m : Int) :
    doingElapsed (t._acc_hold_until_now now) m = doingElapsed t m := by
  simp [doingElapsed]


/-! ## Characterization of successful transitions -/

/-- A successful `ticket_action` call is exactly one of the four dispatch
branches, with the guards that protect it: a `doing` start on a
not-already-`DOING` ticket, a `hold` start on a not-already-`HOLD` ticket
with a reason, a `done` with a solution, or a `cancel` with a reason. -/
theorem ticket_action_ok_cases {t t' : Ticket} {actor : String} {now : Int}
    {action : String} {rsn sol : Option String}
    (h : ticket_action t actor now action rsn sol = Except.ok t') :
    (t.status ≠ Status.doing ∧
      t' = { t.start_doing now with current_actor := some actor,
                                    last_action := some "doing" }) ∨
    (t.status ≠ Status.hold ∧ ∃ r, rsn = some r ∧
      t' = { t.start_hold now (pyStrip r) with
               current_actor := some actor, last_action := some "hold" }) ∨
    (∃ s, sol = some s ∧
      t' = { t.done now (pyStrip s) actor with
               current_actor := none, last_action := some "done" }) ∨
    (∃ r, rsn = some r ∧
      t' = { t.cancel now (pyStrip r) actor with
               current_actor := none, last_action := some "cancel" }) := by
  unfold ticket_action at h
  simp only [] at h
  repeat' split at h
  all_goals try (exact Except.noConfusion h)
  all_goals simp only [Except.ok.injEq] at h
  all_goals subst h
  all_goals first
    | exact Or.inl ⟨by tauto, rfl⟩
    | exact Or.inr (Or.inl ⟨by tauto, _, rfl, rfl⟩)
    | exact Or.inr (Or.inr (Or.inl ⟨_, rfl, rfl⟩))
    | exact Or.inr (Or.inr (Or.inr ⟨_, rfl, rfl⟩))

/-! ## Invariants of reachable states -/

/-- `Reach` preserves mutual exclusion of the two open-interval marks. -/
theorem reach_mutex {t : Ticket} (h : Reach t) : MutexOpen t := by
  induction h with
  | init => exact Or.inl rfl
  | step actor now action rsn sol ht hok ih =>
    rcases ticket_action_ok_cases hok with ⟨_, h1⟩ | ⟨_, r, _, h1⟩ | ⟨s, _, h1⟩ | ⟨r, _, h1⟩
    · subst h1; exact Or.inr (by simp [Ticket.start_doing])
    · subst h1; exact Or.inl (by simp [Ticket.start_hold])
    · subst h1; exact Or.inl (by simp [Ticket.done])
    · subst h1; exact Or.inl (by simp [Ticket.cancel])

/-- `start_doing` (with the endpoint's actor bookkeeping) preserves the
time-accounting invariant, re-stamped at its instant. -/
theorem timeInv_start_doing {t : Ticket} {tl now : Int} {a : String}
    (h : TimeInv t tl) (hle : tl ≤ now) :
    TimeInv { t.start_doing now with current_actor := some a,
                                     last_action := some "doing" } now := by
  obtain ⟨h1, h2, h3, h4, h5, hm, h7⟩ := h
  rcases hd : t.doing_started_at with _ | sd <;>
    rcases hh : t.hold_started_at with _ | sh <;>
    simp only [TimeInv, MutexOpen, openElapsed, doingElapsed, holdElapsed, hd, hh,
      Ticket.start_doing, Ticket._acc_hold_until_now] at h7 ⊢ <;>
    simp_all <;>
    try omega

/-- `start_hold` (with the endpoint's actor bookkeeping) preserves the
time-accounting invariant, re-stamped at its instant. -/
theorem timeInv_start_hold {t : Ticket} {tl now : Int} {a r : String}
    (h : TimeInv t tl) (hle : tl ≤ now) :
    TimeInv { t.start_hold now r with current_actor := some a,
                                      last_action := some "hold" } now := by
  obtain ⟨h1, h2, h3, h4, h5, hm, h7⟩ := h
  rcases hd : t.doing_started_at with _ | sd <;>
    rcases hh : t.hold_started_at with _ | sh <;>
    simp only [TimeInv, MutexOpen, openElapsed, doingElapsed, holdElapsed, hd, hh,
      Ticket.start_hold, Ticket._acc_doing_until_now] at h7 ⊢ <;>
    simp_all <;>
    try omega

/-- `done` (with the endpoint's actor bookkeeping) preserves the
time-accounting invariant, re-stamped at its instant. -/
theorem timeInv_done {t : Ticket} {tl now : Int} {sol a : String}
    (h : TimeInv t tl) (hle : tl ≤ now) :
    TimeInv { t.done now sol a with current_actor := none,
                                    last_action := some "done" } now := by
  obtain ⟨h1, h2, h3, h4, h5, hm, h7⟩ := h
  rcases hd : t.doing_started_at with _ | sd <;>
    rcases hh : t.hold_started_at with _ | sh <;>
    simp only [TimeInv, MutexOpen, openElapsed, doingElapsed, holdElapsed, hd, hh,
      Ticket.done, Ticket._acc_doing_until_now, Ticket._acc_hold_until_now] at h7 ⊢ <;>
    simp_all <;>
    try omega
  all_goals (rcases hm with hm | hm <;> simp_all)

/-- `cancel` (with the endpoint's actor bookkeeping) preserves the
time-accounting invariant, re-stamped at its instant. -/
theorem timeInv_cancel {t : Ticket} {tl now : Int} {r a : String}
    (h : TimeInv t tl) (hle : tl ≤ now) :
    TimeInv { t.cancel now r a with current_actor := none,
                                    last_action := some "cancel" } now := by
  obtain ⟨h1, h2, h3, h4, h5, hm, h7⟩ := h
  rcases hd : t.doing_started_at with _ | sd <;>
    rcases hh : t.hold_started_at with _ | sh <;>
    simp only [TimeInv, MutexOpen, openElapsed, doingElapsed, holdElapsed, hd, hh,
      Ticket.cancel, Ticket._acc_doing_until_now, Ticket._acc_hold_until_now] at h7 ⊢ <;>
    simp_all <;>
    try omega
  all_goals (rcases hm with hm | hm <;> simp_all)

/-- Every state reachable with weakly increasing supplied instants
satisfies the time-accounting invariant. -/
theorem reachAt_timeInv {t : Ticket} {tl : Int} (h : ReachAt t tl) : TimeInv t tl := by
  induction h with
  | init i created requester machine equipment machine_id problem description =>
    refine ⟨le_refl _, le_refl _, le_refl _, ?_, ?_, Or.inl rfl, ?_⟩ <;>
      simp [Ticket.new, openElapsed, doingElapsed, holdElapsed]
  | step actor action rsn sol ht hle hok ih =>
    rcases ticket_action_ok_cases hok with ⟨_, h1⟩ | ⟨_, r, _, h1⟩ | ⟨s, _, h1⟩ | ⟨r, _, h1⟩
    · subst h1; exact timeInv_start_doing ih hle
    · subst h1; exact timeInv_start_hold ih hle
    · subst h1; exact timeInv_done ih hle
    · subst h1; exact timeInv_cancel ih hle

/-- The invariant at `tl` extends to every later observation instant: an
open interval grows at unit rate, so the accounted total still fits in
the lifetime. -/
theorem timeInv_bound {t : Ticket} {tl now : Int} (h : TimeInv t tl) (hle : tl ≤ now) :
    t.doing_secs + t.hold_secs + openElapsed t now ≤ now - t.created_at := by
  obtain ⟨h1, h2, h3, h4, h5, hm, h7⟩ := h
  rcases hd : t.doing_started_at with _ | sd <;>
    rcases hh : t.hold_started_at with _ | sh <;>
    simp only [MutexOpen, openElapsed, doingElapsed, holdElapsed, hd, hh] at h7 hm ⊢ <;>
    simp_all <;>
    try omega

/-! ## Evaluation of the action verbs -/

/-- `"doing".lower().strip()` is `"doing"`. -/
theorem act_doing_eval : pyStrip (pyLower "doing") = "doing" := by decide

/-- `"hold".lower().strip()` is `"hold"`. -/
theorem act_hold_eval : pyStrip (pyLower "hold") = "hold" := by decide

/-- `"done".lower().strip()` is `"done"`. -/
theorem act_done_eval : pyStrip (pyLower "done") = "done" := by decide

/-- `"cancel".lower().strip()` is `"cancel"`. -/
theorem act_cancel_eval : pyStrip (pyLower "cancel") = "cancel" := by decide

/-! ## The claims -/

/-- C1, counterexample: `cancel` on a `DONE` ticket is NOT rejected —
`ticket_action` accepts it and moves the ticket to `CANCELLED`, because
the handler has no terminal-state guard. -/
theorem cancel_on_done_not_rejected :
    (ticket_action tDoneTicket "bob" 200 "cancel" (some "mistake") none).map
        Ticket.status = Except.ok Status.cancelled := by decide

/-- C1, amended: `DONE`/`CANCELLED` are not enforced as terminal: a
`cancel` call with a non-empty reason on a terminal ticket is accepted,
setting status `CANCELLED` and overwriting `closed_at` with `now`; only
the per-action guards (re-entry, ownership on `done`, blank text) can
reject, none of which mention terminal states. -/
theorem cancel_on_terminal_accepted {t : Ticket} {a r : String} {now : Int}
    (hst : t.status = Status.done ∨ t.status = Status.cancelled)
    (hr : pyStrip r ≠ "") :
    ticket_action t a now "cancel" (some r) none =
      Except.ok { t.cancel now (pyStrip r) a with
                  current_actor := none, last_action := some "cancel" } := by
  unfold ticket_action
  rcases hst with hst | hst <;> simp [act_cancel_eval, hst, hr]

/-- C1, witness for the amended claim at a concrete `DONE` ticket. -/
theorem cancel_on_terminal_accepted_witness :
    ticket_action tDoneTicket "bob" 200 "cancel" (some "mistake") none =
      Except.ok { tDoneTicket.cancel 200 (pyStrip "mistake") "bob" with
                  current_actor := none, last_action := some "cancel" } :=
  cancel_on_terminal_accepted (Or.inl rfl) (by decide)

/-- C2, counterexample: a `done` call with a non-empty solution on a
`PENDING` ticket is NOT rejected — the handler has no
source-status guard for `done`, so the ticket jumps to `DONE`. -/
theorem done_on_pending_not_rejected :
    (ticket_action scen0 "bob" 200 "done" none (some "fix")).map
        Ticket.status = Except.ok Status.done := by decide

/-- C2, amended: `done` is not restricted to `DOING`/`HOLD`: on a
`PENDING` ticket (where the ownership guard cannot apply) a `done` call
with a non-empty solution is accepted, setting status `DONE` and
`closed_at = now`. -/
theorem done_from_pending_accepted {t : Ticket} {a s : String} {now : Int}
    (hst : t.status = Status.pending) (hs : pyStrip s ≠ "") :
    ticket_action t a now "done" none (some s) =
      Except.ok { t.done now (pyStrip s) a with
                  current_actor := none, last_action := some "done" } := by
  unfold ticket_action
  simp [act_done_eval, hst, hs]

/-- C2, witness for the amended claim at a concrete `PENDING` ticket. -/
theorem done_from_pending_accepted_witness :
    ticket_action scen0 "bob" 200 "done" none (some "fix") =
      Except.ok { scen0.done 200 (pyStrip "fix") "bob" with
                  current_actor := none, last_action := some "done" } :=
  done_from_pending_accepted rfl (by decide)

/-- C3: along every sequence of accepted transitions with weakly
increasing supplied instants, `busySeconds + holdSeconds` plus the
elapsed span of any open interval never exceeds `now - createdAt`, for
every observation instant `now` at or after the last transition. -/
theorem accounted_time_bound {t : Ticket} {tl now : Int}
    (h : ReachAt t tl) (hle : tl ≤ now) :
    t.doing_secs + t.hold_secs + openElapsed t now ≤ now - t.created_at :=
  timeInv_bound (reachAt_timeInv h) hle

/-- C3, witness: the bound evaluated at instant 25 on the reachable
ticket obtained by a `startDoing` at instant 10 after creation at 0. -/
theorem accounted_time_bound_witness :
    tW1.doing_secs + tW1.hold_secs + openElapsed tW1 25 ≤ 25 - tW1.created_at :=
  accounted_time_bound
    (@ReachAt.step (Ticket.new 1 0 "req" none none none none none) tW1 0 10
      "alice" "doing" none none
      (ReachAt.init 1 0 "req" none none none none none) (by decide) (by decide))
    (by decide)

/-- C4: in every reachable ticket state, at most one of
`doing_started_at` and `hold_started_at` is non-null: `start_doing`
flushes any open hold interval before opening a busy one, `start_hold`
the converse, and `done`/`cancel` flush both. -/
theorem open_marks_mutex {t : Ticket} (h : Reach t) :
    t.doing_started_at = none ∨ t.hold_started_at = none :=
  reach_mutex h

/-- C4, witness: the mutual exclusion evaluated on the reachable ticket
obtained by a `startDoing` at instant 10 after creation at 0. -/
theorem open_marks_mutex_witness :
    tW1.doing_started_at = none ∨ tW1.hold_started_at = none :=
  open_marks_mutex
    (Reach.step "alice" 10 "doing" none none
      (Reach.init 1 0 "req" none none none none none) (by decide))

/-- C5: while a ticket is `DOING` or `HOLD` with `current_actor = A`
(non-empty), a `done` call from `B ≠ A` is rejected with
`OwnershipConflict` (producing no new ticket state), while the same call
from `A` with a non-empty solution is accepted. -/
theorem done_ownership_arbitration {t : Ticket} {A B s : String} {now : Int}
    {rsn : Option String}
    (hst : t.status = Status.doing ∨ t.status = Status.hold)
    (hcur : t.current_actor = some A) (hA : A ≠ "") (hBA : B ≠ A)
    (hs : pyStrip s ≠ "") :
    ticket_action t B now "done" rsn (some s) = Except.error Err.ownershipConflict ∧
    ticket_action t A now "done" rsn (some s) =
      Except.ok { t.done now (pyStrip s) A with
                  current_actor := none, last_action := some "done" } := by
  have hconf : owner_conflict t.current_actor B = true := by
    simp only [hcur, owner_conflict, Bool.and_eq_true, bne_iff_ne]
    exact ⟨hA, fun h => hBA h.symm⟩
  constructor
  · unfold ticket_action
    simp only [act_done_eval]
    rw [if_pos ⟨hst, trivial, hconf⟩]
  · have hnoconf : owner_conflict t.current_actor A = false := by
      simp [owner_conflict, hcur]
    unfold ticket_action
    rcases hst with hst | hst <;> simp [act_done_eval, hst, hnoconf, hs]

/-- C5, witness: on the concrete `DOING` ticket held by `"alice"`,
`"bob"`'s `done` is rejected and `"alice"`'s `done` succeeds. -/
theorem done_ownership_arbitration_witness :
    ticket_action tHeldByAlice "bob" 50 "done" none (some "fixed it") =
      Except.error Err.ownershipConflict ∧
    ticket_action tHeldByAlice "alice" 50 "done" none (some "fixed it") =
      Except.ok { tHeldByAlice.done 50 (pyStrip "fixed it") "alice" with
                  current_actor := none, last_action := some "done" } :=
  done_ownership_arbitration (Or.inl rfl) rfl (by decide) (by decide) (by decide)

/-- C6, counterexample: in the top-level `server_app.py`, the ownership
guard applies only to `done`; a `startHold` from `"bob"` on a `DOING`
ticket actively held by `"alice"` is accepted and reassigns
`current_actor` to `"bob"` — a takeover without `done`/`cancel`. -/
theorem start_hold_takeover_accepted :
    (ticket_action tHeldByAlice "bob" 50 "hold" (some "mine now") none).map
        Ticket.current_actor = Except.ok (some "bob") := by decide

/-- C6, amended: only the `supporthub/supporthub/server_app.py` variant
rejects `startDoing`/`startHold` from a different actor with
`OwnershipConflict` while the ticket is `DOING` or `HOLD` with a
non-empty `current_actor`; the top-level variant ownership-checks `done`
alone. -/
theorem v2_claim_rejected_for_other_actor {t : Ticket} {A B : String} {now : Int}
    {rsn sol : Option String}
    (hst : t.status = Status.doing ∨ t.status = Status.hold)
    (hcur : t.current_actor = some A) (hA : A ≠ "") (hBA : B ≠ A) :
    ticket_action_v2 t B now "doing" rsn sol = Except.error Err.ownershipConflict ∧
    ticket_action_v2 t B now "hold" rsn sol = Except.error Err.ownershipConflict := by
  have hconf : owner_conflict t.current_actor B = true := by
    simp only [hcur, owner_conflict, Bool.and_eq_true, bne_iff_ne]
    exact ⟨hA, fun h => hBA h.symm⟩
  constructor <;> (unfold ticket_action_v2; rw [if_pos ⟨hst, hconf⟩])

/-- C6, witness for the amended claim on the concrete held ticket. -/
theorem v2_claim_rejected_for_other_actor_witness :
    ticket_action_v2 tHeldByAlice "bob" 50 "doing" none none =
      Except.error Err.ownershipConflict ∧
    ticket_action_v2 tHeldByAlice "bob" 50 "hold" (some "x") none =
      Except.error Err.ownershipConflict :=
  v2_claim_rejected_for_other_actor (Or.inl rfl) rfl (by decide) (by decide)

/-- C7: a `done` call with a blank (missing, empty or whitespace-only)
solution and a `cancel` call with a blank reason are rejected with
`ValidationError`, producing no new ticket state; for `done` this
assumes the ownership guard does not fire first (`current_actor` unset
or equal to the caller). -/
theorem blank_text_rejected {t : Ticket} {a : String} {now : Int}
    {rsn sol : Option String}
    (hown : t.current_actor = none ∨ t.current_actor = some a)
    (hsol : blank sol = true) (hrsn : blank rsn = true) :
    ticket_action t a now "done" rsn sol = Except.error Err.validationError ∧
    ticket_action t a now "cancel" rsn sol = Except.error Err.validationError := by
  have hnoconf : owner_conflict t.current_actor a = false := by
    rcases hown with h | h <;> simp [owner_conflict, h]
  constructor
  · unfold ticket_action
    rcases sol with _ | s
    · simp [act_done_eval, hnoconf]
    · have hs : pyStrip s = "" := by simpa [blank] using hsol
      simp [act_done_eval, hnoconf, hs]
  · unfold ticket_action
    rcases rsn with _ | r
    · simp [act_cancel_eval]
    · have hr : pyStrip r = "" := by simpa [blank] using hrsn
      simp [act_cancel_eval, hr]

/-- C7, witness: whitespace-only solution and reason are rejected on the
concrete held ticket. -/
theorem blank_text_rejected_witness :
    ticket_action tHeldByAlice "alice" 50 "done" (some " ") (some "   ") =
      Except.error Err.validationError ∧
    ticket_action tHeldByAlice "alice" 50 "cancel" (some " ") (some "   ") =
      Except.error Err.validationError :=
  blank_text_rejected (Or.inr (by decide)) (by decide) (by decide)

/-- C8: `startDoing` on a ticket already `DOING`, and `startHold` on a
ticket already `HOLD`, are rejected with `InvalidStateTransition`,
producing no new ticket state — the running timer is never reset by a
repeated start. -/
theorem restart_rejected {t : Ticket} {a : String} {now : Int}
    {rsn sol : Option String} :
    (t.status = Status.doing →
      ticket_action t a now "doing" rsn sol = Except.error Err.invalidStateTransition) ∧
    (t.status = Status.hold →
      ticket_action t a now "hold" rsn sol = Except.error Err.invalidStateTransition) := by
  constructor <;> intro hst <;> unfold ticket_action <;>
    simp [act_doing_eval, act_hold_eval, hst]

/-- C8, witness: a repeated `startDoing` on the concrete `DOING` ticket
is rejected. -/
theorem restart_rejected_witness :
    ticket_action tHeldByAlice "alice" 50 "doing" none none =
      Except.error Err.invalidStateTransition :=
  (restart_rejected (t := tHeldByAlice)).1 rfl

/-- C9: the accumulator flushes are idempotent: flushing twice in a row
(at any instants) equals flushing once, and a flush with no open
interval is a no-op. -/
theorem flush_idempotent (t : Ticket) (n1 n2 : Int) :
    (t._acc_doing_until_now n1)._acc_doing_until_now n2 = t._acc_doing_until_now n1 ∧
    (t._acc_hold_until_now n1)._acc_hold_until_now n2 = t._acc_hold_until_now n1 ∧
    (t.doing_started_at = none → t._acc_doing_until_now n1 = t) ∧
    (t.hold_started_at = none → t._acc_hold_until_now n1 = t) := by
  refine ⟨?_, ?_, fun h => ?_, fun h => ?_⟩
  · cases hd : t.doing_started_at <;>
      simp [Ticket._acc_doing_until_now, hd]
  · cases hh : t.hold_started_at <;>
      simp [Ticket._acc_hold_until_now, hh]
  · simp [Ticket._acc_doing_until_now, h]
  · simp [Ticket._acc_hold_until_now, h]

/-- C9, witness: the no-op clauses evaluated on the fresh ticket, whose
intervals are closed. -/
theorem flush_idempotent_witness :
    scen0._acc_doing_until_now 7 = scen0 ∧ scen0._acc_hold_until_now 7 = scen0 := by
  constructor
  · exact (flush_idempotent scen0 7 9).2.2.1 (by decide)
  · exact (flush_idempotent scen0 7 9).2.2.2 (by decide)

/-- C10: the specified scenario — create at `t0 = 0`, `startDoing` at
`+10s`, `startHold` at `+70s` (reason "waiting parts"), `startDoing` at
`+130s`, `done` at `+190s` (solution "fixed"), all by actor `A` — yields
`busySeconds = 60` after the hold, `holdSeconds = 60` after the second
start, and finally `busySeconds = 120`, `holdSeconds = 60`, status
`DONE`, `closedAt = 190`, with derived `waitingSeconds = 10`. -/
theorem scenario_accounting :
    scen2.map Ticket.doing_secs = Except.ok 60 ∧
    scen3.map Ticket.hold_secs = Except.ok 60 ∧
    scen4.map (fun t => (t.doing_secs, t.hold_secs, t.status, t.closed_at, waitingSecs t)) =
      Except.ok (120, 60, Status.done, some 190, 10) := by
  refine ⟨?_, ?_, ?_⟩ <;> decide
